import Mathlib

/-!
  Verification of the CountMeOut mental-math application core.

  The definitions below are a shallow embedding of the source files
  (client math engine, practice-session hook, achievement engine,
  settings/data hooks).  JavaScript numbers are modelled as integers
  and rationals: every quantity the embedded code manipulates is an
  integer or an exact rational, and Math.random() draws are modelled
  as rational parameters r with 0 ≤ r < 1.
-/

namespace CountMeOut

/-! ## Math engine (mathEngine.ts) -/

/-- Numeric range with integer bounds, as in the customRange config field
and the per-difficulty default ranges. -/
structure NumRange where
  min : ℤ
  max : ℤ
deriving DecidableEq, Repr

/-- Source randomInRange: Math.floor(Math.random() * (max - min + 1)) + min,
with the Math.random() draw passed explicitly as a rational r. -/
def randomInRange (lo hi : ℤ) (r : ℚ) : ℤ :=
  ⌊r * ((hi : ℚ) - (lo : ℚ) + 1)⌋ + lo

/-- Source getRange: the custom range when given, otherwise the default
range of the difficulty tier. -/
def getRange (difficulty : String) (customRange : Option NumRange) : NumRange :=
  match customRange with
  | some c => c
  | none =>
    if difficulty = "beginner" then ⟨1, 10⟩
    else if difficulty = "intermediate" then ⟨1, 100⟩
    else if difficulty = "advanced" then ⟨1, 1000⟩
    else if difficulty = "expert" then ⟨1, 10000⟩
    else ⟨1, 100⟩

/-- Source ProblemConfig.  The operation and difficulty fields are strings
because the TypeScript union types are erased at runtime and the engine
must handle unrecognized values (its default switch branch). -/
structure ProblemConfig where
  operation : String
  difficulty : String
  includeDecimals : Bool
  includeNegatives : Bool
  multiStep : Bool
  mixedOperations : Bool
  customRange : Option NumRange
deriving DecidableEq, Repr

/-- Source MathProblem, restricted to the data the logic computes with.
The id, timestamps and the expression strings are presentation data
derived from the factors list; for division the expression is
"factors[0] ÷ factors[1]", so factors[0] is the dividend shown and
factors[1] the divisor shown. -/
structure MathProblem where
  operation : String
  difficulty : String
  answer : ℤ
  factors : List ℤ
  isMultiStep : Bool
deriving DecidableEq, Repr

/-- Source validateAnswer: Math.abs(userAnswer - correctAnswer) <= tolerance.
The source default for the tolerance argument is 0.01. -/
def validateAnswer (userAnswer correctAnswer : ℚ) (tolerance : ℚ) : Bool :=
  decide (|userAnswer - correctAnswer| ≤ tolerance)

/-- Source generateAddition. -/
def generateAddition (cfg : ProblemConfig) (r1 r2 : ℚ) : MathProblem :=
  let range := getRange cfg.difficulty cfg.customRange
  let a := randomInRange range.min range.max r1
  let b := randomInRange range.min range.max r2
  ⟨"addition", cfg.difficulty, a + b, [a, b], false⟩

/-- Source generateSubtraction: the operands are swapped when negatives are
disabled and b > a, so that the result is nonnegative. -/
def generateSubtraction (cfg : ProblemConfig) (r1 r2 : ℚ) : MathProblem :=
  let range := getRange cfg.difficulty cfg.customRange
  let a := randomInRange range.min range.max r1
  let b := randomInRange range.min range.max r2
  let p := if cfg.includeNegatives = false ∧ a < b then (b, a) else (a, b)
  ⟨"subtraction", cfg.difficulty, p.1 - p.2, [p.1, p.2], false⟩

/-- Source generateMultiplication. -/
def generateMultiplication (cfg : ProblemConfig) (r1 r2 : ℚ) : MathProblem :=
  let range := getRange cfg.difficulty cfg.customRange
  let a := randomInRange range.min range.max r1
  let b := randomInRange range.min range.max r2
  ⟨"multiplication", cfg.difficulty, a * b, [a, b], false⟩

/-- Source generateDivision: b = randomInRange(max(1, min), max), quotient =
randomInRange(min, floor(max / b)), a = b * quotient, answer = quotient,
factors [a, b].  Math.floor of the real quotient max / b is Int.fdiv for
b ≠ 0.  When b = 0 the source computes Math.floor(max / 0) = ±Infinity and
the resulting problem holds non-finite numbers, outside the integer model;
that path is marked none here.  It is unreachable whenever
max(1, range.min) ≤ range.max. -/
def generateDivision (cfg : ProblemConfig) (r1 r2 : ℚ) : Option MathProblem :=
  let range := getRange cfg.difficulty cfg.customRange
  let b := randomInRange (max 1 range.min) range.max r1
  if b = 0 then none
  else
    let quotient := randomInRange range.min (Int.fdiv range.max b) r2
    let a := b * quotient
    some ⟨"division", cfg.difficulty, quotient, [a, b], false⟩

/-- Source generatePercentage: answer = Math.round(base * percentage / 100);
JavaScript Math.round rounds half toward positive infinity, which is
Mathlib round on ℚ. -/
def generatePercentage (cfg : ProblemConfig) (r1 r2 : ℚ) : MathProblem :=
  let range := getRange cfg.difficulty cfg.customRange
  let base := randomInRange 10 range.max r1
  let percentage := randomInRange 5 100 r2
  ⟨"percentage", cfg.difficulty, round (((base * percentage : ℤ) : ℚ) / 100),
    [base, percentage], false⟩

/-- Source operator palette for multi-step problems. -/
def multiStepOps : List String := ["+", "-", "×"]

/-- Source operations[Math.floor(Math.random() * operations.length)] with
the palette of the three multi-step operators. -/
def pickOp (r : ℚ) : String :=
  multiStepOps.getD (⌊r * 3⌋).toNat "+"

/-- Meaning of one binary operator drawn from the multi-step palette. -/
def applyOp (op : String) (x y : ℤ) : ℤ :=
  if op = "+" then x + y else if op = "-" then x - y else x * y

/-- Source evaluateExpression restricted to the shape the generator builds:
a three-operand expression a op1 b op2 c over the palette, evaluated by the
JavaScript engine under standard precedence (multiplication binds tighter,
otherwise left to right). -/
def evalThree (a : ℤ) (op1 : String) (b : ℤ) (op2 : String) (c : ℤ) : ℤ :=
  if op2 = "×" then applyOp op1 a (b * c)
  else if op1 = "×" then applyOp op2 (a * b) c
  else applyOp op2 (applyOp op1 a b) c

/-- Source generateMultiStepProblem: three operand draws, two operator
draws, answer = evaluation of the expression; the operation field is copied
from the config unchecked. -/
def generateMultiStepProblem (cfg : ProblemConfig) (r1 r2 r3 r4 r5 : ℚ) :
    MathProblem :=
  let range := getRange cfg.difficulty cfg.customRange
  let n1 := randomInRange range.min range.max r1
  let n2 := randomInRange range.min range.max r2
  let n3 := randomInRange range.min range.max r3
  let o1 := pickOp r4
  let o2 := pickOp r5
  ⟨cfg.operation, cfg.difficulty, evalThree n1 o1 n2 o2 n3, [n1, n2, n3], true⟩

/-- Source generateProblem: the multiStep flag is checked before the
operation switch, and the default switch branch throws
"Unsupported operation".  The inner Option mirrors generateDivision. -/
def generateProblem (cfg : ProblemConfig) (r1 r2 r3 r4 r5 : ℚ) :
    Except String (Option MathProblem) :=
  if cfg.multiStep then
    Except.ok (some (generateMultiStepProblem cfg r1 r2 r3 r4 r5))
  else if cfg.operation = "addition" then
    Except.ok (some (generateAddition cfg r1 r2))
  else if cfg.operation = "subtraction" then
    Except.ok (some (generateSubtraction cfg r1 r2))
  else if cfg.operation = "multiplication" then
    Except.ok (some (generateMultiplication cfg r1 r2))
  else if cfg.operation = "division" then
    Except.ok (generateDivision cfg r1 r2)
  else if cfg.operation = "percentage" then
    Except.ok (some (generatePercentage cfg r1 r2))
  else
    Except.error ("Unsupported operation: " ++ cfg.operation)

/-- Source generateProblemSet: count independent calls to generateProblem,
with the random draws of iteration i supplied by rand i. -/
def generateProblemSet (cfg : ProblemConfig) (count : ℕ)
    (rand : ℕ → ℚ × ℚ × ℚ × ℚ × ℚ) : Except String (List (Option MathProblem)) :=
  (List.range count).mapM (fun i =>
    match rand i with
    | (a, b, c, d, e) => generateProblem cfg a b c d e)

/-! ## Helper lemmas about the random draws -/

/-- Range soundness of randomInRange: for a legitimate random draw and a
nonempty range, the result lies inside the range. -/
theorem randomInRange_bounds (lo hi : ℤ) (r : ℚ) (h0 : 0 ≤ r) (h1 : r < 1)
    (hlh : lo ≤ hi) : lo ≤ randomInRange lo hi r ∧ randomInRange lo hi r ≤ hi := by
  have hn : (0 : ℚ) < (hi : ℚ) - (lo : ℚ) + 1 := by
    have : (lo : ℚ) ≤ (hi : ℚ) := by exact_mod_cast hlh
    linarith
  have hlow : (0 : ℚ) ≤ r * ((hi : ℚ) - (lo : ℚ) + 1) := by positivity
  have hhigh : r * ((hi : ℚ) - (lo : ℚ) + 1) < ((hi - lo + 1 : ℤ) : ℚ) := by
    push_cast
    calc r * ((hi : ℚ) - (lo : ℚ) + 1) < 1 * ((hi : ℚ) - (lo : ℚ) + 1) := by
          exact mul_lt_mul_of_pos_right h1 hn
      _ = (hi : ℚ) - (lo : ℚ) + 1 := by ring
  have hf0 : 0 ≤ ⌊r * ((hi : ℚ) - (lo : ℚ) + 1)⌋ := Int.floor_nonneg.mpr hlow
  have hf1 : ⌊r * ((hi : ℚ) - (lo : ℚ) + 1)⌋ < hi - lo + 1 := Int.floor_lt.mpr hhigh
  unfold randomInRange
  omega

/-! ## Practice session state machine (usePracticeSession.ts) -/

/-- PracticeMode of the hook. -/
inductive Mode where
  | timed
  | accuracy
  | audio
deriving DecidableEq, Repr

/-- Source PracticeSessionState.  userAnswer stores the submitted value as
parsed by parseFloat, with none for a non-numeric (NaN) parse;
sessionStarted models sessionStartTime being non-null; the clock interval
handle and the feedback wording are presentation details, feedback is kept
as the Correct/Incorrect discriminator string. -/
structure SessionState where
  problems : List MathProblem
  currentProblemIndex : ℕ
  currentProblem : Option MathProblem
  userAnswer : Option ℚ
  isCorrect : Option Bool
  score : ℕ
  correctAnswers : ℕ
  timeElapsed : ℕ
  timeRemaining : Option ℤ
  isActive : Bool
  isComplete : Bool
  feedback : String
  sessionStarted : Bool
deriving DecidableEq, Repr

/-- The useState initializer of the hook. -/
def initState (mode : Mode) (timeLimit : ℤ) : SessionState :=
  ⟨[], 0, none, none, none, 0, 0, 0,
    if mode = Mode.timed then some timeLimit else none,
    false, false, "", false⟩

/-- Source startSession, given the problem list the generator produced:
resets every counter and activates the session; the current problem is
problems[0], which is undefined (none) when the list is empty. -/
def startSessionState (mode : Mode) (timeLimit : ℤ) (problems : List MathProblem) :
    SessionState :=
  ⟨problems, 0, problems.head?, none, none, 0, 0, 0,
    if mode = Mode.timed then some timeLimit else none,
    true, false, "", true⟩

/-- Source clock-tick callback installed by startSession: a no-op when
inactive; otherwise computes timeElapsed + 1 and, in timed mode,
max(0, timeRemaining - 1); when timed and the decremented value is 0 it
only sets isComplete/isActive, leaving timeElapsed and timeRemaining at
their previous values. -/
def tick (mode : Mode) (s : SessionState) : SessionState :=
  if s.isActive = false then s
  else
    let newTimeElapsed := s.timeElapsed + 1
    let newTimeRemaining : Option ℤ :=
      if mode = Mode.timed then some (max 0 (s.timeRemaining.getD 0 - 1)) else none
    if mode = Mode.timed ∧ newTimeRemaining = some 0 then
      { s with isComplete := true, isActive := false }
    else
      { s with timeElapsed := newTimeElapsed, timeRemaining := newTimeRemaining }

/-- The source line mathEngine.validateAnswer(parseFloat(answer),
currentProblem.answer): validation of the parsed submission against the
current problem at the default tolerance 0.01; a NaN parse (none) compares
false. -/
def checkSubmission (answer : Option ℚ) (p : Option MathProblem) : Bool :=
  match answer, p with
  | some v, some q => validateAnswer v (q.answer : ℚ) (1 / 100)
  | _, _ => false

/-- Source submitAnswer: a no-op without a current problem or when
inactive; otherwise validates the parsed answer against the current
problem with the default tolerance 0.01 (a NaN parse validates false) and
adds 1 to correctAnswers and 10 to score on success.  It does not advance;
the delayed auto-advance arrives later as a nextProblem action. -/
def submitAnswer (mode : Mode) (answer : Option ℚ) (s : SessionState) : SessionState :=
  if s.currentProblem = none ∨ s.isActive = false then s
  else
    let isC := checkSubmission answer s.currentProblem
    { s with userAnswer := answer, isCorrect := some isC,
             correctAnswers := s.correctAnswers + (if isC then 1 else 0),
             score := s.score + (if isC then 10 else 0),
             feedback := if isC then "Correct" else "Incorrect" }

/-- Source nextProblem (also the body of skipProblem and of the delayed
auto-advance): past the end of the list it completes the session and
clears the current problem, otherwise it moves the cursor and resets the
per-problem transient fields. -/
def nextProblem (s : SessionState) : SessionState :=
  let nextIndex := s.currentProblemIndex + 1
  if s.problems.length ≤ nextIndex then
    { s with isComplete := true, isActive := false, currentProblem := none }
  else
    { s with currentProblemIndex := nextIndex,
             currentProblem := s.problems[nextIndex]?,
             userAnswer := none, isCorrect := none, feedback := "" }

/-- Source endSession. -/
def endSession (s : SessionState) : SessionState :=
  { s with isComplete := true, isActive := false }

/-- Source SessionResults. -/
structure SessionResults where
  problemsSolved : ℕ
  correctAnswers : ℕ
  accuracy : ℚ
  totalTime : ℕ
  averageTime : ℚ
  score : ℕ
deriving DecidableEq, Repr

/-- The problemsSolved count saveResults computes:
currentProblemIndex + (isCorrect !== null ? 1 : 0). -/
def problemsSolvedOf (s : SessionState) : ℕ :=
  s.currentProblemIndex + (if s.isCorrect = none then 0 else 1)

/-- Source saveResults, the pure result computation: throws when the
session was never started; accuracy and averageTime divide by
Math.max(currentProblemIndex, 1). -/
def saveResults (s : SessionState) : Except String SessionResults :=
  if s.sessionStarted = false then Except.error "Session not started"
  else Except.ok
    { problemsSolved := problemsSolvedOf s,
      correctAnswers := s.correctAnswers,
      accuracy := ((s.correctAnswers : ℚ) / ((max s.currentProblemIndex 1 : ℕ) : ℚ)) * 100,
      totalTime := s.timeElapsed,
      averageTime := (s.timeElapsed : ℚ) / ((max s.currentProblemIndex 1 : ℕ) : ℚ),
      score := s.score }

/-- The events that drive the hook state: starting, the 1-second clock,
a submission, an advance (nextProblem, skipProblem or the delayed
auto-advance) and the explicit endSession. -/
inductive SessionAction where
  | start (problems : List MathProblem)
  | tick
  | submit (answer : Option ℚ)
  | next
  | stop
deriving DecidableEq, Repr

/-- One transition of the session state machine. -/
def step (mode : Mode) (timeLimit : ℤ) (a : SessionAction) (s : SessionState) :
    SessionState :=
  match a with
  | SessionAction.start ps => startSessionState mode timeLimit ps
  | SessionAction.tick => tick mode s
  | SessionAction.submit v => submitAnswer mode v s
  | SessionAction.next => nextProblem s
  | SessionAction.stop => endSession s

/-- States reachable from the initial hook state by any event sequence. -/
inductive Reachable (mode : Mode) (timeLimit : ℤ) : SessionState → Prop where
  | init : Reachable mode timeLimit (initState mode timeLimit)
  | step (a : SessionAction) {s : SessionState} (h : Reachable mode timeLimit s) :
      Reachable mode timeLimit (step mode timeLimit a s)

/-- States reachable when every problem is submitted at most once: a
submit event only fires on a state whose isCorrect is still unset. -/
inductive ReachableOne (mode : Mode) (timeLimit : ℤ) : SessionState → Prop where
  | init : ReachableOne mode timeLimit (initState mode timeLimit)
  | start (ps : List MathProblem) {s : SessionState}
      (h : ReachableOne mode timeLimit s) :
      ReachableOne mode timeLimit (step mode timeLimit (SessionAction.start ps) s)
  | tick {s : SessionState} (h : ReachableOne mode timeLimit s) :
      ReachableOne mode timeLimit (step mode timeLimit SessionAction.tick s)
  | submit (v : Option ℚ) {s : SessionState} (h : ReachableOne mode timeLimit s)
      (hc : s.isCorrect = none) :
      ReachableOne mode timeLimit (step mode timeLimit (SessionAction.submit v) s)
  | next {s : SessionState} (h : ReachableOne mode timeLimit s) :
      ReachableOne mode timeLimit (step mode timeLimit SessionAction.next s)
  | stop {s : SessionState} (h : ReachableOne mode timeLimit s) :
      ReachableOne mode timeLimit (step mode timeLimit SessionAction.stop s)

/-! ## Achievement engine (achievementEngine.ts) -/

/-- Source loop body of checkDailyStreak: walk the session days (midnights,
newest first), carrying the current calendar day being matched and the
streak counter; a session on the matched day extends the streak and moves
the match one day back, an older day stops the walk, a newer day (another
session on an already matched day) is skipped. -/
def streakLoop : List ℤ → ℤ → ℕ → ℕ
  | [], _, streak => streak
  | d :: rest, cur, streak =>
    if d = cur then streakLoop rest (cur - 1) (streak + 1)
    else if d < cur then streak
    else streakLoop rest cur streak

/-- Source checkDailyStreak: sessions are read ordered by completedAt
descending; days is the list of their calendar days (dates truncated to
midnight, encoded as day numbers), today the current calendar day.  An
empty history is false; otherwise the walked streak is compared with the
target. -/
def checkDailyStreak (targetStreak : ℕ) (days : List ℤ) (today : ℤ) : Bool :=
  if days.isEmpty then false
  else decide (targetStreak ≤ streakLoop days today 0)

/-! ## Persisted collections and the clear-all surface (db.ts, useSettings) -/

/-- Source UserSettings row (the schema fields). -/
structure UserSettingsRec where
  dyslexiaMode : Bool
  highContrast : Bool
  largeText : Bool
  soundEffects : Bool
  voiceFeedback : Bool
  voiceSpeed : ℚ
  darkMode : Bool
  updatedAt : ℤ
deriving DecidableEq, Repr

/-- The default settings values, identical in the useSettings
defaultSettings object and in initializeDB. -/
def defaultSettingsRec (now : ℤ) : UserSettingsRec :=
  ⟨false, false, false, true, true, 1, false, now⟩

/-- Parsed form of the requirement JSON descriptor of an achievement. -/
structure RequirementDesc where
  reqType : String
  value : Option ℤ
  operator : Option String
  mode : Option String
  accuracy : Option ℤ
  problems : Option ℤ
deriving DecidableEq, Repr

/-- Source Achievement row; a missing unlockedAt means locked. -/
structure AchievementRec where
  name : String
  description : String
  icon : String
  category : String
  requirement : RequirementDesc
  unlockedAt : Option ℤ
deriving DecidableEq, Repr

/-- Source defaultAchievements catalog of db.ts (ten entries, all locked). -/
def defaultAchievements : List AchievementRec :=
  [⟨"First Steps", "Complete your first problem", "target", "milestone",
      ⟨"problems_solved", some 1, none, none, none, none⟩, none⟩,
   ⟨"Perfect Score", "Get 100 percent accuracy in a session", "medal", "accuracy",
      ⟨"session_accuracy", some 100, none, none, none, none⟩, none⟩,
   ⟨"Speed Demon", "Average under 2 seconds per problem", "bolt", "speed",
      ⟨"avg_time", some 2, some "less", none, none, none⟩, none⟩,
   ⟨"Hot Streak", "Practice 7 days in a row", "fire", "streak",
      ⟨"daily_streak", some 7, none, none, none, none⟩, none⟩,
   ⟨"Century Club", "Solve 100 problems", "hundred", "milestone",
      ⟨"problems_solved", some 100, none, none, none, none⟩, none⟩,
   ⟨"Math Master", "Master all 5 operations", "crown", "milestone",
      ⟨"all_operations_mastered", some 5, none, none, none, none⟩, none⟩,
   ⟨"Accuracy Ace", "Maintain 95 percent accuracy over 50 problems", "target", "accuracy",
      ⟨"accuracy_streak", none, none, none, some 95, some 50⟩, none⟩,
   ⟨"Marathon Runner", "Practice for 1 hour in a single day", "runner", "milestone",
      ⟨"daily_time", some 3600, none, none, none, none⟩, none⟩,
   ⟨"Audio Expert", "Complete 20 problems in audio-only mode", "headphones", "milestone",
      ⟨"mode_problems", some 20, none, none, some 0, none⟩, none⟩,
   ⟨"Lightning Fast", "Average under 1 second per problem", "bolt", "speed",
      ⟨"avg_time", some 1, some "less", none, none, none⟩, none⟩]

/-- Source PracticeSession row. -/
structure PracticeSessionRow where
  mode : String
  operation : String
  difficulty : String
  problemsSolved : ℕ
  correctAnswers : ℕ
  sessionTime : ℕ
  accuracy : ℚ
  avgTimePerProblem : Option ℚ
  completedAt : ℤ
deriving DecidableEq, Repr

/-- Source UserProgress row restricted to the counters the additive merge
updates (timestamps omitted). -/
structure ProgressRecord where
  problemsSolved : ℕ
  correctAnswers : ℕ
  totalTime : ℕ
deriving DecidableEq, Repr

/-- Source update branch of saveResults on an existing OperationProgress
bucket: additive merge of the session results into the bucket. -/
def mergeProgress (existing : ProgressRecord) (r : SessionResults) : ProgressRecord :=
  ⟨existing.problemsSolved + r.problemsSolved,
   existing.correctAnswers + r.correctAnswers,
   existing.totalTime + r.totalTime⟩

/-- The four persisted Dexie collections. -/
structure DBState where
  practiceSessions : List PracticeSessionRow
  userProgress : List ProgressRecord
  achievements : List AchievementRec
  userSettings : List UserSettingsRec
deriving DecidableEq, Repr

/-- Source clearAllData of useSettings: clears the four collections, then
adds one default-settings row (spread of the defaultSettings object). -/
def clearAllData (_s : DBState) (now : ℤ) : DBState :=
  { practiceSessions := [], userProgress := [], achievements := [],
    userSettings := [defaultSettingsRec now] }

/-- Source initializeDB of db.ts, run at application startup: seeds the
achievement catalog when the collection is empty, and one default-settings
row when none exists. -/
def initializeDB (s : DBState) (now : ℤ) : DBState :=
  let s1 := if s.achievements.length = 0
    then { s with achievements := defaultAchievements } else s
  if s1.userSettings.length = 0
    then { s1 with userSettings := [defaultSettingsRec now] } else s1

/-! ## C9 — the answer validator -/

/-- C9 counterexample: the validator is not reflexive at every tolerance;
with tolerance -1 the number 0 is not accepted against itself, refuting
the claim that for every tolerance every number is valid against itself. -/
theorem validateAnswer_claim_counterexample :
    validateAnswer 0 0 (-1) = false := by norm_num [validateAnswer]

/-- C9 (amended): for every pair of numbers and every tolerance the
validator returns true iff the absolute difference is at most the
tolerance; it is symmetric in the two numbers, deterministic, and
reflexive for every nonnegative tolerance, in particular at the default
tolerance 0.01. -/
theorem validateAnswer_spec :
    (∀ u c t : ℚ, validateAnswer u c t = true ↔ |u - c| ≤ t) ∧
    (∀ u c t : ℚ, validateAnswer u c t = validateAnswer c u t) ∧
    (∀ u c t : ℚ, validateAnswer u c t = validateAnswer u c t) ∧
    (∀ u t : ℚ, 0 ≤ t → validateAnswer u u t = true) ∧
    (∀ u : ℚ, validateAnswer u u (1 / 100) = true) := by
  refine ⟨?_, ?_, ?_, ?_, ?_⟩
  · intro u c t
    simp [validateAnswer]
  · intro u c t
    simp [validateAnswer, abs_sub_comm]
  · intro u c t
    rfl
  · intro u t ht
    simpa [validateAnswer, sub_self] using ht
  · intro u
    simp [validateAnswer, sub_self]

/-- C9 witness: the reflexivity part of validateAnswer_spec applied at a
concrete nonnegative tolerance. -/
theorem validateAnswer_spec_witness :
    (0 : ℚ) ≤ 5 ∧ validateAnswer 3 3 5 = true :=
  ⟨by norm_num, validateAnswer_spec.2.2.2.1 3 5 (by norm_num)⟩

/-! ## C6 — the clear-all surface -/

/-- A database state holding the seeded catalog and default settings. -/
def seededDB : DBState := ⟨[], [], defaultAchievements, [defaultSettingsRec 0]⟩

/-- C6 counterexample: clearAllData leaves the achievements collection
empty, refuting the claim that the clear-all operation re-seeds the
achievement catalog (the nonempty catalog existed before the clear). -/
theorem clearAllData_claim_counterexample :
    seededDB.achievements ≠ [] ∧ (clearAllData seededDB 5).achievements = [] := by
  refine ⟨?_, rfl⟩
  decide

/-- C6 (amended): clearAllData wipes all four collections and re-seeds
only the default user settings; the achievement catalog stays empty until
the next database initialization at application startup, which re-seeds
the full catalog with every entry locked and keeps the settings row. -/
theorem clearAllData_spec (s : DBState) (now later : ℤ) :
    (clearAllData s now).practiceSessions = [] ∧
    (clearAllData s now).userProgress = [] ∧
    (clearAllData s now).achievements = [] ∧
    (clearAllData s now).userSettings = [defaultSettingsRec now] ∧
    (initializeDB (clearAllData s now) later).achievements = defaultAchievements ∧
    (∀ a ∈ (initializeDB (clearAllData s now) later).achievements, a.unlockedAt = none) ∧
    (initializeDB (clearAllData s now) later).userSettings = [defaultSettingsRec now] := by
  refine ⟨rfl, rfl, rfl, rfl, rfl, ?_, rfl⟩
  rw [show (initializeDB (clearAllData s now) later).achievements =
    defaultAchievements from rfl]
  decide

/-! ## C5 — starting a session with sessionLength 0 -/

/-- An ordinary addition config used for concrete instantiations. -/
def cfgAddBeginner : ProblemConfig :=
  ⟨"addition", "beginner", false, false, false, false, none⟩

/-- A constant random stream for concrete instantiations. -/
def zeroRand : ℕ → ℚ × ℚ × ℚ × ℚ × ℚ := fun _ => (0, 0, 0, 0, 0)

/-- C5 counterexample: with sessionLength 0 generation succeeds with an
empty problem list and startSession leaves the session active and not
complete with no current problem — it is neither rejected as an invalid
configuration nor immediately Complete, refuting the claim. -/
theorem startSession_zero_counterexample :
    generateProblemSet cfgAddBeginner 0 zeroRand = Except.ok [] ∧
    (startSessionState Mode.accuracy 600 []).isActive = true ∧
    (startSessionState Mode.accuracy 600 []).isComplete = false ∧
    (startSessionState Mode.accuracy 600 []).currentProblem = none := by
  refine ⟨rfl, rfl, rfl, rfl⟩

/-- C5 (amended): starting a session with sessionLength 0 neither fails
nor completes: generation yields an empty list and the session becomes
active, not complete, with no current problem; submitting is then a
no-op, the first advance or the explicit end transitions to Complete, and
saveResults afterwards reports problemsSolved 0 and accuracy 0. -/
theorem startSession_zero_spec (mode : Mode) (tl : ℤ) (cfg : ProblemConfig)
    (rand : ℕ → ℚ × ℚ × ℚ × ℚ × ℚ) :
    generateProblemSet cfg 0 rand = Except.ok [] ∧
    (startSessionState mode tl []).isActive = true ∧
    (startSessionState mode tl []).isComplete = false ∧
    (startSessionState mode tl []).currentProblem = none ∧
    (∀ v, submitAnswer mode v (startSessionState mode tl []) =
      startSessionState mode tl []) ∧
    (nextProblem (startSessionState mode tl [])).isComplete = true ∧
    (nextProblem (startSessionState mode tl [])).isActive = false ∧
    (endSession (startSessionState mode tl [])).isComplete = true ∧
    saveResults (endSession (startSessionState mode tl [])) =
      Except.ok ⟨0, 0, 0, 0, 0, 0⟩ := by
  refine ⟨rfl, rfl, rfl, rfl, ?_, ?_, ?_, rfl, ?_⟩
  · intro v
    have hc : (startSessionState mode tl []).currentProblem = none := rfl
    rw [submitAnswer, if_pos (Or.inl hc)]
  · simp [nextProblem, startSessionState]
  · simp [nextProblem, startSessionState]
  · simp only [saveResults, endSession, startSessionState, problemsSolvedOf]
    norm_num

/-! ## C7 — unrecognized operations in generateProblem -/

/-- A config with an unrecognized operation and the multiStep flag set. -/
def cfgModuloMS : ProblemConfig :=
  ⟨"modulo", "beginner", false, false, true, false, none⟩

/-- The same unrecognized operation without the multiStep flag. -/
def cfgModuloPlain : ProblemConfig :=
  ⟨"modulo", "beginner", false, false, false, false, none⟩

/-- C7 counterexample: with the multiStep flag set, generateProblem
returns a problem for the unrecognized operation "modulo" instead of
signalling an invalid-configuration error, refuting the claim that every
config with an unrecognized operation throws, including multiStep ones. -/
theorem generateProblem_multiStep_counterexample :
    generateProblem cfgModuloMS 0 0 0 0 0 =
      Except.ok (some ⟨"modulo", "beginner", 3, [1, 1, 1], true⟩) ∧
    cfgModuloMS.operation ∉
      (["addition", "subtraction", "multiplication", "division", "percentage"] :
        List String) := by
  constructor
  · simp only [generateProblem, cfgModuloMS]
    norm_num [generateMultiStepProblem, getRange, randomInRange, pickOp,
      multiStepOps, evalThree, applyOp]
    decide
  · decide

/-- C7 (amended): generateProblem signals the unsupported-operation error
for an unrecognized operation exactly when the multiStep flag is not set;
with multiStep set it returns a multi-step problem regardless of the
operation, because the flag is checked before the operation switch. -/
theorem generateProblem_unrecognized_spec :
    (∀ (cfg : ProblemConfig) (r1 r2 r3 r4 r5 : ℚ), cfg.multiStep = false →
      cfg.operation ∉
        (["addition", "subtraction", "multiplication", "division", "percentage"] :
          List String) →
      generateProblem cfg r1 r2 r3 r4 r5 =
        Except.error ("Unsupported operation: " ++ cfg.operation)) ∧
    (∀ (cfg : ProblemConfig) (r1 r2 r3 r4 r5 : ℚ), cfg.multiStep = true →
      generateProblem cfg r1 r2 r3 r4 r5 =
        Except.ok (some (generateMultiStepProblem cfg r1 r2 r3 r4 r5))) := by
  constructor
  · intro cfg r1 r2 r3 r4 r5 hm hop
    simp only [List.mem_cons, List.not_mem_nil, or_false, not_or] at hop
    obtain ⟨h1, h2, h3, h4, h5⟩ := hop
    simp [generateProblem, hm, h1, h2, h3, h4, h5]
  · intro cfg r1 r2 r3 r4 r5 hm
    simp [generateProblem, hm]

/-- C7 witness: the amended theorem applied at the concrete "modulo"
configs, without and with the multiStep flag. -/
theorem generateProblem_unrecognized_spec_witness :
    generateProblem cfgModuloPlain 0 0 0 0 0 =
      Except.error ("Unsupported operation: " ++ cfgModuloPlain.operation) ∧
    generateProblem cfgModuloMS 0 0 0 0 0 =
      Except.ok (some (generateMultiStepProblem cfgModuloMS 0 0 0 0 0)) :=
  ⟨generateProblem_unrecognized_spec.1 cfgModuloPlain 0 0 0 0 0 rfl (by decide),
   generateProblem_unrecognized_spec.2 cfgModuloMS 0 0 0 0 0 rfl⟩

/-! ## C2 — exactness of generated division problems -/

/-- A division config with a well-formed custom range of negative integer
bounds. -/
def cfgDivNeg : ProblemConfig :=
  ⟨"division", "beginner", false, false, false, false, some ⟨-5, -2⟩⟩

/-- C2 counterexample: over the custom range [-5, -2] the divisor draw
randomInRange(max(1, -5), -2) can return -1, below max(1, range.min) = 1,
refuting the claim that for any custom range with integer bounds the
divisor is at least max(1, range.min).  The random draw 3/5 is a
legitimate Math.random() value. -/
theorem generateDivision_claim_counterexample :
    (0 : ℚ) ≤ 3 / 5 ∧ (3 / 5 : ℚ) < 1 ∧
    generateDivision cfgDivNeg (3 / 5) 0 =
      some ⟨"division", "beginner", -5, [5, -1], false⟩ ∧
    (-1 : ℤ) < max 1 (getRange cfgDivNeg.difficulty cfgDivNeg.customRange).min := by
  refine ⟨by norm_num, by norm_num, ?_, by decide⟩
  have hb : randomInRange (max 1 (-5 : ℤ)) (-2) (3 / 5) = -1 := by
    norm_num [randomInRange]
  have hfd : Int.fdiv (-2 : ℤ) (-1) = 2 := by decide
  have hq : randomInRange (-5 : ℤ) 2 0 = -5 := by
    norm_num [randomInRange]
  simp only [generateDivision, cfgDivNeg, getRange]
  rw [hb]
  norm_num
  rw [hfd, hq]
  norm_num

/-- C2 (amended): whenever the effective range satisfies
max(1, range.min) ≤ range.max — which holds for every difficulty default
range and for any custom range whose max is at least max(1, min) — every
generated division problem has a divisor b with max(1, range.min) ≤ b ≤
range.max, a dividend that is exactly divisor times the stored answer,
and the answer is the exact integer quotient: dividend % divisor = 0 and
dividend / divisor = answer. -/
theorem generateDivision_exact (cfg : ProblemConfig) (r1 r2 : ℚ)
    (h0 : 0 ≤ r1) (h1 : r1 < 1)
    (hr : max 1 (getRange cfg.difficulty cfg.customRange).min ≤
      (getRange cfg.difficulty cfg.customRange).max) :
    ∃ a b q : ℤ,
      generateDivision cfg r1 r2 =
        some ⟨"division", cfg.difficulty, q, [a, b], false⟩ ∧
      max 1 (getRange cfg.difficulty cfg.customRange).min ≤ b ∧
      b ≤ (getRange cfg.difficulty cfg.customRange).max ∧
      0 < b ∧ a = b * q ∧ a % b = 0 ∧ a / b = q := by
  obtain ⟨hbl, hbu⟩ := randomInRange_bounds
    (max 1 (getRange cfg.difficulty cfg.customRange).min)
    (getRange cfg.difficulty cfg.customRange).max r1 h0 h1 hr
  set rng := getRange cfg.difficulty cfg.customRange with hrng
  set b := randomInRange (max 1 rng.min) rng.max r1 with hbdef
  have hb1 : (1 : ℤ) ≤ b := le_trans (le_max_left 1 rng.min) hbl
  have hbne : b ≠ 0 := by omega
  set q := randomInRange rng.min (Int.fdiv rng.max b) r2 with hqdef
  refine ⟨b * q, b, q, ?_, hbl, hbu, by omega, rfl, Int.mul_emod_right b q,
    Int.mul_ediv_cancel_left q hbne⟩
  simp only [generateDivision, ← hrng, ← hbdef, if_neg hbne, ← hqdef]

/-- A division config at the intermediate difficulty default range. -/
def cfgDivInter : ProblemConfig :=
  ⟨"division", "intermediate", false, false, false, false, none⟩

/-- C2 witness: the amended theorem applied at the intermediate default
range [1, 100] with the concrete random draw 1/2. -/
theorem generateDivision_exact_witness :
    ((0 : ℚ) ≤ 1 / 2 ∧ (1 / 2 : ℚ) < 1 ∧
      max 1 (getRange cfgDivInter.difficulty cfgDivInter.customRange).min ≤
        (getRange cfgDivInter.difficulty cfgDivInter.customRange).max) ∧
    (∃ a b q : ℤ,
      generateDivision cfgDivInter (1 / 2) (1 / 2) =
        some ⟨"division", cfgDivInter.difficulty, q, [a, b], false⟩ ∧
      max 1 (getRange cfgDivInter.difficulty cfgDivInter.customRange).min ≤ b ∧
      b ≤ (getRange cfgDivInter.difficulty cfgDivInter.customRange).max ∧
      0 < b ∧ a = b * q ∧ a % b = 0 ∧ a / b = q) :=
  ⟨⟨by norm_num, by norm_num, by decide⟩,
   generateDivision_exact cfgDivInter (1 / 2) (1 / 2) (by norm_num) (by norm_num)
     (by decide)⟩

/-! ## C4 — the daily-streak requirement -/

/-- The streak counter only accumulates: running the walk with an initial
counter is running it from zero plus that counter. -/
theorem streakLoop_add (days : List ℤ) (cur : ℤ) (s : ℕ) :
    streakLoop days cur s = s + streakLoop days cur 0 := by
  induction days generalizing cur s with
  | nil => simp [streakLoop]
  | cons d rest ih =>
    by_cases h1 : d = cur
    · simp only [streakLoop, if_pos h1]
      rw [ih (cur - 1) (s + 1), ih (cur - 1) 1]
      omega
    · by_cases h2 : d < cur
      · simp [streakLoop, h1, h2]
      · simp only [streakLoop, if_neg h1, if_neg h2]
        exact ih cur s

/-- Core correctness of the streak walk: on a newest-first (descending)
day list, the walked streak reaches k exactly when each of the k calendar
days cur, cur-1, ..., cur-k+1 occurs in the list.  Duplicate days (several
sessions on one day) are skipped and do not break the walk. -/
theorem streakLoop_ge_iff (days : List ℤ) (cur : ℤ) (k : ℕ)
    (hs : List.Sorted (fun a b => b ≤ a) days) :
    k ≤ streakLoop days cur 0 ↔ ∀ i : ℕ, i < k → (cur - i) ∈ days := by
  induction days generalizing cur k with
  | nil =>
    simp only [streakLoop, List.not_mem_nil]
    constructor
    · intro h i hi
      omega
    · intro h
      by_contra hk
      exact h 0 (by omega)
  | cons d rest ih =>
    have hd : ∀ x ∈ rest, x ≤ d := (List.sorted_cons.mp hs).1
    have hrest := (List.sorted_cons.mp hs).2
    rcases lt_trichotomy d cur with hlt | heq | hgt
    · simp only [streakLoop, if_neg (by omega : ¬ d = cur), if_pos hlt]
      constructor
      · intro hk i hi
        omega
      · intro h
        by_contra hk
        have hcur : (cur : ℤ) ∈ d :: rest := by simpa using h 0 (by omega)
        rcases List.mem_cons.mp hcur with hh | hh
        · omega
        · have := hd _ hh
          omega
    · subst heq
      have hstep : streakLoop (d :: rest) d 0 = 1 + streakLoop rest (d - 1) 0 := by
        simp [streakLoop, streakLoop_add rest (d - 1) 1]
      rw [hstep]
      cases k with
      | zero =>
        constructor
        · intro _ i hi
          omega
        · intro _
          exact Nat.zero_le _
      | succ m =>
        have ihm := ih (d - 1) m hrest
        constructor
        · intro hk i hi
          have hm : m ≤ streakLoop rest (d - 1) 0 := by omega
          have hall := ihm.mp hm
          cases i with
          | zero => simp
          | succ j =>
            have hx : d - ((j + 1 : ℕ) : ℤ) = d - 1 - (j : ℤ) := by push_cast; ring
            rw [hx]
            exact List.mem_cons_of_mem d (hall j (by omega))
        · intro hall
          have hm : ∀ j : ℕ, j < m → (d - 1 - j) ∈ rest := by
            intro j hj
            have h2 := hall (j + 1) (by omega)
            have heq2 : d - ((j + 1 : ℕ) : ℤ) = d - 1 - (j : ℤ) := by push_cast; ring
            rw [heq2] at h2
            rcases List.mem_cons.mp h2 with hh | hh
            · exfalso
              omega
            · exact hh
          have := ihm.mpr hm
          omega
    · simp only [streakLoop, if_neg (by omega : ¬ d = cur), if_neg (by omega : ¬ d < cur)]
      rw [ih cur k hrest]
      constructor
      · intro h i hi
        exact List.mem_cons_of_mem _ (h i hi)
      · intro h i hi
        rcases List.mem_cons.mp (h i hi) with hh | hh
        · exfalso
          omega
        · exact hh

/-- C4: for a session-day list read newest first (descending) and a target
value of at least 1, the daily_streak requirement is satisfied exactly
when each of the value consecutive calendar days walking backward from
today contains at least one session; duplicate days are skipped, so
several sessions on the same calendar day never shorten or break the
streak, and with one session per day on sequential days the value = 7
requirement first holds when the 7 most recent days are all present. -/
theorem checkDailyStreak_spec (value : ℕ) (days : List ℤ) (today : ℤ)
    (hs : List.Sorted (fun a b => b ≤ a) days) (hv : 1 ≤ value) :
    checkDailyStreak value days today = true ↔
      ∀ i : ℕ, i < value → (today - i) ∈ days := by
  unfold checkDailyStreak
  cases days with
  | nil =>
    simp only [List.isEmpty_nil, if_pos rfl]
    constructor
    · intro h
      cases h
    · intro h
      exact absurd (h 0 (by omega)) (List.not_mem_nil _)
  | cons d rest =>
    simp only [List.isEmpty_cons, Bool.false_eq_true, if_false, decide_eq_true_eq]
    exact streakLoop_ge_iff (d :: rest) today value hs

/-- C4 witness: seven consecutive session days ending today satisfy the
value = 7 requirement. -/
theorem checkDailyStreak_spec_witness :
    checkDailyStreak 7 [9, 8, 7, 6, 5, 4, 3] 9 = true :=
  (checkDailyStreak_spec 7 [9, 8, 7, 6, 5, 4, 3] 9 (by decide) (by decide)).mpr
    (by decide)

/-! ## Helper lemmas about the session transitions -/

/-- The clock tick never touches the problem cursor, the answer flags or
the two score counters. -/
theorem tick_preserves (mode : Mode) (t : SessionState) :
    (tick mode t).score = t.score ∧ (tick mode t).correctAnswers = t.correctAnswers ∧
    (tick mode t).currentProblemIndex = t.currentProblemIndex ∧
    (tick mode t).isCorrect = t.isCorrect ∧
    (tick mode t).sessionStarted = t.sessionStarted := by
  simp only [tick]
  split_ifs <;> simp

/-- Advancing never touches the two score counters or the started flag. -/
theorem next_preserves (t : SessionState) :
    (nextProblem t).score = t.score ∧ (nextProblem t).correctAnswers = t.correctAnswers ∧
    (nextProblem t).sessionStarted = t.sessionStarted := by
  simp only [nextProblem]
  split_ifs <;> simp

/-- A submission either leaves both counters unchanged (wrong or ignored
answer) or adds exactly 1 to correctAnswers and 10 to score. -/
theorem submit_counters (mode : Mode) (v : Option ℚ) (t : SessionState) :
    ((submitAnswer mode v t).correctAnswers = t.correctAnswers ∧
      (submitAnswer mode v t).score = t.score) ∨
    ((submitAnswer mode v t).correctAnswers = t.correctAnswers + 1 ∧
      (submitAnswer mode v t).score = t.score + 10) := by
  simp only [submitAnswer]
  split_ifs with h hc
  · left
    exact ⟨rfl, rfl⟩
  · right
    simp
  · left
    simp

/-- Score stays ten times correctAnswers in every reachable state. -/
theorem reachable_score_eq (mode : Mode) (tl : ℤ) (s : SessionState)
    (h : Reachable mode tl s) : s.score = 10 * s.correctAnswers := by
  induction h with
  | init => simp [initState]
  | @step a s h ih =>
    cases a with
    | start ps => simp [step, startSessionState]
    | tick =>
      obtain ⟨h1, h2, -⟩ := tick_preserves mode s
      simp only [step]
      omega
    | submit v =>
      rcases submit_counters mode v s with ⟨h1, h2⟩ | ⟨h1, h2⟩ <;>
        simp only [step] <;> omega
    | next =>
      obtain ⟨h1, h2, -⟩ := next_preserves s
      simp only [step]
      omega
    | stop => simpa [step, endSession] using ih

/-! ## C10 — score is always ten times correctAnswers -/

/-- C10: in every reachable session state score = 10 × correctAnswers;
startSession initializes both to 0, a submission either changes neither
counter or adds exactly 1 and 10 in lockstep, and the clock tick, the
advance and the explicit end change neither. -/
theorem score_ratio_invariant (mode : Mode) (tl : ℤ) (s : SessionState)
    (h : Reachable mode tl s) :
    s.score = 10 * s.correctAnswers ∧
    (∀ (v : Option ℚ) (t : SessionState),
      ((submitAnswer mode v t).correctAnswers = t.correctAnswers ∧
        (submitAnswer mode v t).score = t.score) ∨
      ((submitAnswer mode v t).correctAnswers = t.correctAnswers + 1 ∧
        (submitAnswer mode v t).score = t.score + 10)) ∧
    (∀ t : SessionState,
      (tick mode t).score = t.score ∧ (tick mode t).correctAnswers = t.correctAnswers ∧
      (nextProblem t).score = t.score ∧ (nextProblem t).correctAnswers = t.correctAnswers ∧
      (endSession t).score = t.score ∧ (endSession t).correctAnswers = t.correctAnswers) ∧
    (∀ ps : List MathProblem,
      (startSessionState mode tl ps).score = 0 ∧
      (startSessionState mode tl ps).correctAnswers = 0) := by
  refine ⟨reachable_score_eq mode tl s h, submit_counters mode, ?_, ?_⟩
  · intro t
    obtain ⟨t1, t2, -⟩ := tick_preserves mode t
    obtain ⟨n1, n2, -⟩ := next_preserves t
    exact ⟨t1, t2, n1, n2, rfl, rfl⟩
  · intro ps
    exact ⟨rfl, rfl⟩

/-- A concrete addition problem with answer 5. -/
def p5 : MathProblem := ⟨"addition", "beginner", 5, [2, 3], false⟩

/-- A correct submission on p5 validates true at the default tolerance. -/
theorem checkSubmission_p5 : checkSubmission (some 5) (some p5) = true := by
  norm_num [checkSubmission, p5, validateAnswer]

/-- The state after starting with one problem and answering it once. -/
def singleSubmitState : SessionState :=
  submitAnswer Mode.accuracy (some 5) (startSessionState Mode.accuracy 600 [p5])

/-- C10 witness: the invariant applied to the reachable state after one
correct submission. -/
theorem score_ratio_invariant_witness :
    singleSubmitState.score = 10 * singleSubmitState.correctAnswers :=
  (score_ratio_invariant Mode.accuracy 600 singleSubmitState
    (Reachable.step (SessionAction.submit (some 5))
      (Reachable.step (SessionAction.start [p5]) Reachable.init))).1

/-! ## C3 — correctAnswers versus problemsSolved -/

/-- The state after starting with one problem and answering it correctly
twice before the delayed auto-advance fires. -/
def doubleSubmitState : SessionState :=
  submitAnswer Mode.accuracy (some 5)
    (submitAnswer Mode.accuracy (some 5) (startSessionState Mode.accuracy 600 [p5]))

/-- The literal value of singleSubmitState. -/
theorem singleSubmitState_eq :
    singleSubmitState =
      ⟨[p5], 0, some p5, some 5, some true, 10, 1, 0, none, true, false,
        "Correct", true⟩ := by
  unfold singleSubmitState
  rw [show startSessionState Mode.accuracy 600 [p5] =
    ⟨[p5], 0, some p5, none, none, 0, 0, 0, none, true, false, "", true⟩ from rfl]
  rw [submitAnswer, if_neg (by simp)]
  simp [checkSubmission_p5]

/-- The literal value of doubleSubmitState. -/
theorem doubleSubmitState_eq :
    doubleSubmitState =
      ⟨[p5], 0, some p5, some 5, some true, 20, 2, 0, none, true, false,
        "Correct", true⟩ := by
  unfold doubleSubmitState
  rw [show submitAnswer Mode.accuracy (some 5)
      (startSessionState Mode.accuracy 600 [p5]) =
      ⟨[p5], 0, some p5, some 5, some true, 10, 1, 0, none, true, false,
        "Correct", true⟩ from singleSubmitState_eq]
  rw [submitAnswer, if_neg (by simp)]
  simp [checkSubmission_p5]

/-- C3 counterexample: submitting the same (correct) answer twice on the
same problem is reachable and leaves correctAnswers = 2 while
problemsSolved = 1, refuting the claim that correctAnswers ≤
problemsSolved holds at every reachable state even under repeated
submission. -/
theorem correct_le_solved_counterexample :
    Reachable Mode.accuracy 600 doubleSubmitState ∧
    problemsSolvedOf doubleSubmitState < doubleSubmitState.correctAnswers := by
  constructor
  · exact Reachable.step (SessionAction.submit (some 5))
      (Reachable.step (SessionAction.submit (some 5))
        (Reachable.step (SessionAction.start [p5]) Reachable.init))
  · rw [doubleSubmitState_eq]
    simp [problemsSolvedOf]

/-- Invariant: without resubmission, correctAnswers never exceeds the
problemsSolved count that saveResults would report. -/
theorem reachableOne_correct_le (mode : Mode) (tl : ℤ) (s : SessionState)
    (h : ReachableOne mode tl s) : s.correctAnswers ≤ problemsSolvedOf s := by
  induction h with
  | init => simp [initState, problemsSolvedOf]
  | start ps h ih => simp [step, startSessionState, problemsSolvedOf]
  | @tick s h ih =>
    obtain ⟨-, h2, h3, h4, -⟩ := tick_preserves mode s
    simp only [step, problemsSolvedOf, h2, h3, h4] at *
    exact ih
  | @submit v s h hc ih =>
    have ih2 : s.correctAnswers ≤ s.currentProblemIndex := by
      simpa [problemsSolvedOf, hc] using ih
    simp only [step, submitAnswer]
    split_ifs with hg hb
    · exact ih
    · simp [problemsSolvedOf]
      omega
    · simp [problemsSolvedOf]
      omega
  | @next s h ih =>
    simp only [step, nextProblem]
    split_ifs with hg
    · exact ih
    · have ih2 : s.correctAnswers ≤ s.currentProblemIndex + 1 := by
        simp only [problemsSolvedOf] at ih
        split_ifs at ih <;> omega
      simp [problemsSolvedOf]
      omega
  | @stop s h ih => exact ih

/-- C3 (amended): at every state reachable without resubmission (each
problem submitted at most once before advancing), correctAnswers ≤
problemsSolved, both in the in-memory counters saveResults reads and in
any OperationProgress bucket after the additive merge, provided the
bucket satisfied the invariant before.  With resubmission allowed the
invariant fails (see the counterexample). -/
theorem correct_le_solved_no_resubmit (mode : Mode) (tl : ℤ) (s : SessionState)
    (h : ReachableOne mode tl s) :
    s.correctAnswers ≤ problemsSolvedOf s ∧
    ∀ (b : ProgressRecord) (r : SessionResults), saveResults s = Except.ok r →
      b.correctAnswers ≤ b.problemsSolved →
      (mergeProgress b r).correctAnswers ≤ (mergeProgress b r).problemsSolved := by
  have hinv := reachableOne_correct_le mode tl s h
  refine ⟨hinv, ?_⟩
  intro b r hok hb
  unfold saveResults at hok
  split_ifs at hok with hss
  injection hok with hr
  subst hr
  simp only [mergeProgress]
  omega

/-- C3 witness: the amended invariant applied to the reachable state after
one correct submission (correctAnswers = 1 = problemsSolved). -/
theorem correct_le_solved_no_resubmit_witness :
    singleSubmitState.correctAnswers ≤ problemsSolvedOf singleSubmitState :=
  (correct_le_solved_no_resubmit Mode.accuracy 600 singleSubmitState
    (ReachableOne.submit (some 5)
      (ReachableOne.start [p5] ReachableOne.init) rfl)).1

/-! ## C8 — clock-tick semantics -/

/-- A fresh timed session with a one-second limit. -/
def timedOneSecondState : SessionState := startSessionState Mode.timed 1 [p5]

/-- The literal value of the tick on the one-second timed session: the
session completes, but timeElapsed is not incremented and timeRemaining
is left at 1 rather than decremented to 0. -/
theorem tick_timedOneSecond_eq :
    tick Mode.timed timedOneSecondState =
      ⟨[p5], 0, some p5, none, none, 0, 0, 0, some 1, false, true, "", true⟩ := by
  rw [show timedOneSecondState =
    ⟨[p5], 0, some p5, none, none, 0, 0, 0, some 1, true, false, "", true⟩ from rfl]
  simp only [tick]
  norm_num


/-- C8 counterexample: the completing tick of a timed session (reachable:
start with timeLimit 1, then one tick) transitions Running to Complete
but leaves timeElapsed at 0 instead of incrementing it to 1 and leaves
timeRemaining at 1 instead of clamping it to 0, refuting the claim that
every tick while Running increments timeElapsed by exactly 1 and
decrements timeRemaining. -/
theorem tick_claim_counterexample :
    Reachable Mode.timed 1 timedOneSecondState ∧
    timedOneSecondState.isActive = true ∧
    timedOneSecondState.timeRemaining = some 1 ∧
    (tick Mode.timed timedOneSecondState).isComplete = true ∧
    (tick Mode.timed timedOneSecondState).timeElapsed = 0 ∧
    (tick Mode.timed timedOneSecondState).timeRemaining = some 1 := by
  refine ⟨Reachable.step (SessionAction.start [p5]) Reachable.init, rfl, rfl, ?_, ?_, ?_⟩ <;>
    rw [tick_timedOneSecond_eq]

/-- In every reachable state timeRemaining is nonnegative, given a
nonnegative timeLimit. -/
theorem reachable_timeRemaining_nonneg (mode : Mode) (tl : ℤ) (s : SessionState)
    (hr : Reachable mode tl s) (htl : 0 ≤ tl) :
    ∀ t : ℤ, s.timeRemaining = some t → 0 ≤ t := by
  induction hr with
  | init =>
    intro t ht
    simp only [initState] at ht
    split_ifs at ht
    injection ht with hh
    omega
  | @step a s h ih =>
    cases a with
    | start ps =>
      intro t ht
      simp only [step, startSessionState] at ht
      split_ifs at ht
      injection ht with hh
      omega
    | tick =>
      intro t ht
      simp only [step, tick] at ht
      split_ifs at ht <;>
        first
          | exact ih t ht
          | (injection ht with hh
             rw [← hh]
             exact le_max_left 0 _)
    | submit v =>
      intro t ht
      simp only [step, submitAnswer] at ht
      split_ifs at ht <;> exact ih t ht
    | next =>
      intro t ht
      simp only [step, nextProblem] at ht
      split_ifs at ht <;> exact ih t ht
    | stop => exact ih

/-- C8 (amended): in every reachable state (with a nonnegative time
limit) timeRemaining is never negative; and a tick taken while Running
behaves as follows — when the session is timed and the decremented clock
would reach 0 the tick transitions Running to Complete but leaves both
timeElapsed and timeRemaining unchanged; on every other tick timeElapsed
increases by exactly 1, the Running flags are unchanged, and in timed
mode timeRemaining becomes its old value minus 1 clamped at 0. -/
theorem tick_spec (mode : Mode) (tl : ℤ) (s : SessionState)
    (hr : Reachable mode tl s) (htl : 0 ≤ tl) :
    (∀ t : ℤ, s.timeRemaining = some t → 0 ≤ t) ∧
    (s.isActive = true →
      ((mode = Mode.timed ∧ max 0 (s.timeRemaining.getD 0 - 1) = 0) →
        (tick mode s).isComplete = true ∧ (tick mode s).isActive = false ∧
        (tick mode s).timeElapsed = s.timeElapsed ∧
        (tick mode s).timeRemaining = s.timeRemaining) ∧
      (¬(mode = Mode.timed ∧ max 0 (s.timeRemaining.getD 0 - 1) = 0) →
        (tick mode s).timeElapsed = s.timeElapsed + 1 ∧
        (tick mode s).isComplete = s.isComplete ∧
        (tick mode s).isActive = s.isActive ∧
        (mode = Mode.timed →
          (tick mode s).timeRemaining = some (max 0 (s.timeRemaining.getD 0 - 1))))) := by
  refine ⟨reachable_timeRemaining_nonneg mode tl s hr htl, ?_⟩
  intro ha
  constructor
  · rintro ⟨hm, hz⟩
    simp [tick, ha, hm, hz]
  · intro hn
    by_cases hm : mode = Mode.timed
    · have hz : ¬ max 0 (s.timeRemaining.getD 0 - 1) = 0 := fun hz => hn ⟨hm, hz⟩
      simp [tick, ha, hm, hz]
    · simp [tick, ha, hm]

/-- C8 witness: the amended theorem applied to a fresh timed session with
limit 600 — that tick does not complete and increments timeElapsed. -/
theorem tick_spec_witness :
    (0 : ℤ) ≤ 600 ∧
    (tick Mode.timed (startSessionState Mode.timed 600 [])).timeElapsed =
      (startSessionState Mode.timed 600 []).timeElapsed + 1 := by
  refine ⟨by norm_num, ?_⟩
  have h := (tick_spec Mode.timed 600 (startSessionState Mode.timed 600 [])
    (Reachable.step (SessionAction.start []) Reachable.init) (by norm_num)).2 rfl
  exact (h.2 (by decide)).1

/-! ## C1 — the record saveResults computes -/

/-- The state after answering both problems of a two-problem session and
ending it: index 1 with the tail answer already given. -/
def fullAnswerState : SessionState :=
  endSession (submitAnswer Mode.accuracy (some 5)
    (nextProblem (submitAnswer Mode.accuracy (some 5)
      (startSessionState Mode.accuracy 600 [p5, p5]))))

/-- Evaluation of the first submission of the two-problem trace. -/
theorem fullAnswer_step1 :
    submitAnswer Mode.accuracy (some 5) (startSessionState Mode.accuracy 600 [p5, p5]) =
      ⟨[p5, p5], 0, some p5, some 5, some true, 10, 1, 0, none, true, false,
        "Correct", true⟩ := by
  rw [show startSessionState Mode.accuracy 600 [p5, p5] =
    ⟨[p5, p5], 0, some p5, none, none, 0, 0, 0, none, true, false, "", true⟩ from rfl]
  rw [submitAnswer, if_neg (by simp)]
  simp [checkSubmission_p5]

/-- Evaluation of the advance of the two-problem trace. -/
theorem fullAnswer_step2 :
    nextProblem
      ⟨[p5, p5], 0, some p5, some 5, some true, 10, 1, 0, none, true, false,
        "Correct", true⟩ =
      ⟨[p5, p5], 1, some p5, none, none, 10, 1, 0, none, true, false, "", true⟩ := by
  simp [nextProblem]

/-- Evaluation of the second submission of the two-problem trace. -/
theorem fullAnswer_step3 :
    submitAnswer Mode.accuracy (some 5)
      ⟨[p5, p5], 1, some p5, none, none, 10, 1, 0, none, true, false, "", true⟩ =
      ⟨[p5, p5], 1, some p5, some 5, some true, 20, 2, 0, none, true, false,
        "Correct", true⟩ := by
  rw [submitAnswer, if_neg (by simp)]
  simp [checkSubmission_p5]

/-- The literal value of fullAnswerState. -/
theorem fullAnswerState_eq :
    fullAnswerState =
      ⟨[p5, p5], 1, some p5, some 5, some true, 20, 2, 0, none, false, true,
        "Correct", true⟩ := by
  unfold fullAnswerState
  rw [fullAnswer_step1, fullAnswer_step2, fullAnswer_step3]
  rfl

/-- C1 counterexample: after answering both problems of a two-problem
session the saved record has problemsSolved = 2 and correctAnswers = 2
but accuracy = 200, not the 100 the claimed formula
correctAnswers / max(problemsSolved, 1) × 100 yields — the code divides
by max(currentProblemIndex, 1) = 1 instead. -/
theorem saveResults_claim_counterexample :
    Reachable Mode.accuracy 600 fullAnswerState ∧
    fullAnswerState.isComplete = true ∧
    saveResults fullAnswerState = Except.ok ⟨2, 2, 200, 0, 0, 20⟩ ∧
    ¬((200 : ℚ) = ((2 : ℚ) / ((max (2 : ℕ) 1 : ℕ) : ℚ)) * 100) := by
  refine ⟨?_, ?_, ?_, by norm_num⟩
  · exact Reachable.step SessionAction.stop
      (Reachable.step (SessionAction.submit (some 5))
        (Reachable.step SessionAction.next
          (Reachable.step (SessionAction.submit (some 5))
            (Reachable.step (SessionAction.start [p5, p5]) Reachable.init))))
  · rw [fullAnswerState_eq]
  · rw [fullAnswerState_eq]
    simp [saveResults, problemsSolvedOf]
    norm_num

/-- C1 (amended): for every started session state, saveResults succeeds
and reports problemsSolved = currentProblemIndex plus one more when the
current problem has already been answered, while accuracy and averageTime
divide by max(currentProblemIndex, 1) — not by max(problemsSolved, 1);
the denominator floor still guarantees that a session ended with zero
problems reports problemsSolved = 0 and accuracy = 0 rather than NaN or
infinity. -/
theorem saveResults_record_spec (s : SessionState) (mode : Mode) (tl : ℤ)
    (ps : List MathProblem) (h : s.sessionStarted = true) :
    saveResults s = Except.ok
      { problemsSolved := problemsSolvedOf s,
        correctAnswers := s.correctAnswers,
        accuracy := ((s.correctAnswers : ℚ) /
          ((max s.currentProblemIndex 1 : ℕ) : ℚ)) * 100,
        totalTime := s.timeElapsed,
        averageTime := (s.timeElapsed : ℚ) /
          ((max s.currentProblemIndex 1 : ℕ) : ℚ),
        score := s.score } ∧
    saveResults (endSession (startSessionState mode tl ps)) =
      Except.ok ⟨0, 0, 0, 0, 0, 0⟩ := by
  constructor
  · simp [saveResults, h]
  · simp only [saveResults, endSession, startSessionState, problemsSolvedOf]
    norm_num

/-- The empty session, started and immediately ended. -/
def emptyCompleteState : SessionState :=
  endSession (startSessionState Mode.accuracy 600 [])

/-- C1 witness: the amended theorem applied to the empty completed
session. -/
theorem saveResults_record_spec_witness :
    emptyCompleteState.sessionStarted = true ∧
    (saveResults emptyCompleteState = Except.ok
      { problemsSolved := problemsSolvedOf emptyCompleteState,
        correctAnswers := emptyCompleteState.correctAnswers,
        accuracy := ((emptyCompleteState.correctAnswers : ℚ) /
          ((max emptyCompleteState.currentProblemIndex 1 : ℕ) : ℚ)) * 100,
        totalTime := emptyCompleteState.timeElapsed,
        averageTime := (emptyCompleteState.timeElapsed : ℚ) /
          ((max emptyCompleteState.currentProblemIndex 1 : ℕ) : ℚ),
        score := emptyCompleteState.score } ∧
    saveResults (endSession (startSessionState Mode.accuracy 600 [])) =
      Except.ok ⟨0, 0, 0, 0, 0, 0⟩) :=
  ⟨rfl, saveResults_record_spec emptyCompleteState Mode.accuracy 600 [] rfl⟩

end CountMeOut
